import Mathlib

/-
  Verification of the pymongoose Cython binding (src/unnamed/part_012,
  src/src/pymongoose/_mongoose.pyx) against its specification.

  The binding wraps the Mongoose embedded networking library.  Python-level
  code (the Manager, Connection, HttpMessage classes and the _event_bridge
  callback) is embedded directly from the Cython source.  C-level functions
  of the vendored Mongoose library (mg_http_get_var, mg_http_reply,
  mg_wakeup, ...) are not part of the source tree; where a claim depends on
  them they are modelled from the specification, and each such definition
  carries a doc comment starting with "Modelled from the spec:".

  Python byte strings are modelled as lists of naturals (one per byte);
  Python str values that the binding produces by decoding bytes with
  surrogateescape are modelled at the byte level as well, since that
  decoding is injective on byte strings.
-/

namespace PyMongoose

/-- Byte strings (Python bytes). -/
abbrev Bytes := List Nat

/-- Encode an ASCII string literal as its byte sequence. -/
def strBytes (s : String) : Bytes := s.data.map Char.toNat

/-- Decimal digits of a natural number, as ASCII bytes. -/
def natBytes (n : Nat) : Bytes := (Nat.toDigits 10 n).map Char.toNat

/- Event codes, in the declaration order of the mongoose.h event enum as
   declared in src/src/pymongoose/mongoose.pxd (values are sequential
   from 0, C enum default). -/

def MG_EV_ERROR : Nat := 0
def MG_EV_OPEN : Nat := 1
def MG_EV_POLL : Nat := 2
def MG_EV_RESOLVE : Nat := 3
def MG_EV_CONNECT : Nat := 4
def MG_EV_ACCEPT : Nat := 5
def MG_EV_TLS_HS : Nat := 6
def MG_EV_READ : Nat := 7
def MG_EV_WRITE : Nat := 8
def MG_EV_CLOSE : Nat := 9
def MG_EV_HTTP_HDRS : Nat := 10
def MG_EV_HTTP_MSG : Nat := 11
def MG_EV_WS_OPEN : Nat := 12
def MG_EV_WS_MSG : Nat := 13
def MG_EV_WS_CTL : Nat := 14
def MG_EV_MQTT_CMD : Nat := 15
def MG_EV_MQTT_MSG : Nat := 16
def MG_EV_MQTT_OPEN : Nat := 17
def MG_EV_SNTP_TIME : Nat := 18
def MG_EV_WAKEUP : Nat := 19
def MG_EV_USER : Nat := 20

/-- Maximum number of HTTP headers, from mongoose.pxd. -/
def MG_MAX_HTTP_HEADERS : Nat := 30

/-- The struct mg_http_message view data (mongoose.pxd declaration).
The headers field is the fixed array of MG_MAX_HTTP_HEADERS slots; the
query field is the raw query string bytes. -/
structure mg_http_message where
  method : Bytes := []
  uri : Bytes := []
  query : Bytes := []
  proto : Bytes := []
  headers : List (Bytes × Bytes) := []
  body : Bytes := []
  head : Bytes := []
  message : Bytes := []
deriving DecidableEq

/-- The struct mg_ws_message view data. -/
structure mg_ws_message where
  data : Bytes := []
  flags : Nat := 0
deriving DecidableEq

/-- The struct mg_mqtt_message view data. -/
structure mg_mqtt_message where
  topic : Bytes := []
  data : Bytes := []
  id : Nat := 0
  cmd : Nat := 0
  qos : Nat := 0
  ack : Nat := 0
deriving DecidableEq

/-- The contents of the void pointer ev_data handed to the event callback.
Each constructor records what the C runtime actually passed for the event;
null models a NULL pointer.  longPtr models the pointer to the byte count
that mongoose passes for MG_EV_READ and MG_EV_WRITE. -/
inductive EvData where
  | null
  | httpPtr (m : mg_http_message)
  | wsPtr (m : mg_ws_message)
  | mqttPtr (m : mg_mqtt_message)
  | intPtr (n : Int)
  | charPtr (s : Bytes)
  | mgStrPtr (b : Bytes)
  | longPtr (n : Nat)
deriving DecidableEq

/-- The Python object handed to the application handler as the payload
argument.  pyNone models the Python value None; strVal models a Python
str (kept at the byte level); bytesVal models a Python bytes object. -/
inductive Payload where
  | pyNone
  | httpMsg (m : mg_http_message)
  | wsMsg (m : mg_ws_message)
  | mqttMsg (m : mg_mqtt_message)
  | intVal (n : Int)
  | strVal (s : Bytes)
  | bytesVal (b : Bytes)
deriving DecidableEq

/-- Embeds Manager._wrap_event_data from the Cython source: the event code
selects how ev_data is wrapped into a Python payload.  Each catch-all arm
models the NULL-pointer check of the corresponding branch (the source
returns None when ev_data is NULL); events with no branch fall through to
the final return None.  Note there is no branch for MG_EV_READ or
MG_EV_WRITE in the source. -/
def wrap_event_data (ev : Nat) (ev_data : EvData) : Payload :=
  if ev == MG_EV_HTTP_MSG || ev == MG_EV_HTTP_HDRS || ev == MG_EV_WS_OPEN then
    match ev_data with
    | EvData.httpPtr m => Payload.httpMsg m
    | _ => Payload.pyNone
  else if ev == MG_EV_WS_MSG then
    match ev_data with
    | EvData.wsPtr m => Payload.wsMsg m
    | _ => Payload.pyNone
  else if ev == MG_EV_MQTT_MSG || ev == MG_EV_MQTT_CMD then
    match ev_data with
    | EvData.mqttPtr m => Payload.mqttMsg m
    | _ => Payload.pyNone
  else if ev == MG_EV_MQTT_OPEN then
    match ev_data with
    | EvData.intPtr n => Payload.intVal n
    | _ => Payload.pyNone
  else if ev == MG_EV_ERROR then
    match ev_data with
    | EvData.charPtr s => Payload.strVal s
    | _ => Payload.pyNone
  else if ev == MG_EV_WAKEUP then
    match ev_data with
    | EvData.mgStrPtr b => Payload.bytesVal b
    | _ => Payload.pyNone
  else Payload.pyNone

/-- The struct mg_connection fields the binding reads or writes.  The mgr
flag models whether the mgr back-pointer is non-NULL; send_buf models the
contents of the send iobuf; mqtt_id models the packet-id counter used by
the MQTT codec. -/
structure mg_connection where
  id : Nat
  mgr : Bool := true
  is_closing : Bool := false
  is_listening : Bool := false
  send_buf : Bytes := []
  mqtt_id : Nat := 1

/-- Outcome of one application handler call: it returns normally or raises
a Python exception carrying a message. -/
inductive HandlerOutcome where
  | ok
  | exc (msg : String)

/-- An application event handler: receives the connection (identified by
its id), the event code and the wrapped payload. -/
abbrev Handler := Nat → Nat → Payload → HandlerOutcome

/-- Python exceptions raised at the binding API boundary. -/
inductive PyErr where
  | runtimeError (msg : String)
  | valueError (msg : String)
deriving DecidableEq

/-- The Connection wrapper object of the binding: the conn field is the
wrapped mg_connection pointer (none models NULL), handler the optional
per-connection handler. -/
structure Connection where
  conn : Option mg_connection := none
  handler : Option Handler := none

/-- The Manager object of the binding together with the embedded mg_mgr
state the claims need: connections is the Python dict keyed by the C
pointer value; userdata models whether mgr.userdata still points at the
Manager; wakeup_enabled whether mg_wakeup_init succeeded at construction;
wakeup_queue the framed records written to the wakeup socketpair and not
yet drained by the poll loop. -/
structure Manager where
  default_handler : Option Handler := none
  connections : List (Nat × Connection) := []
  freed : Bool := false
  userdata : Bool := true
  wakeup_enabled : Bool := false
  wakeup_queue : List (Nat × Bytes) := []

/-- Lookup in an association list keyed by Nat (Python dict get). -/
def assocFind {α : Type} (l : List (Nat × α)) (k : Nat) : Option α :=
  (l.find? (fun e => e.1 == k)).map (fun e => e.2)

/-- Replace the value stored at a key (mutation of the stored object). -/
def assocSet {α : Type} (l : List (Nat × α)) (k : Nat) (v : α) : List (Nat × α) :=
  l.map (fun e => if e.1 == k then (k, v) else e)

/-- Remove a key (Python dict pop). -/
def assocErase {α : Type} (l : List (Nat × α)) (k : Nat) : List (Nat × α) :=
  l.filter (fun e => e.1 != k)

/-- Embeds Manager._ensure_connection: look the pointer key up in the
connections dict; if absent, create and register a fresh wrapper with no
handler; if present but with a NULL pointer, rebind the pointer.  Returns
the updated manager and the wrapper. -/
def Manager.ensure_connection (m : Manager) (p : Nat) (conn : mg_connection) :
    Manager × Connection :=
  match assocFind m.connections p with
  | none =>
      let c : Connection := { conn := some conn, handler := none }
      ({ m with connections := m.connections ++ [(p, c)] }, c)
  | some c =>
      match c.conn with
      | none =>
          let c2 : Connection := { c with conn := some conn }
          ({ m with connections := assocSet m.connections p c2 }, c2)
      | some _ => (m, c)

/-- Embeds Manager._drop_connection: pop the wrapper from the dict and set
its _conn pointer to NULL.  Returns the updated manager and the popped
wrapper in its final state (none when the key was absent). -/
def Manager.drop_connection (m : Manager) (p : Nat) : Manager × Option Connection :=
  match assocFind m.connections p with
  | none => (m, none)
  | some c =>
      ({ m with connections := assocErase m.connections p },
       some { c with conn := none })

/-- Embeds Manager._resolve_handler: the per-connection handler when set,
otherwise the Manager default handler. -/
def Manager.resolve_handler (m : Manager) (c : Connection) : Option Handler :=
  match c.handler with
  | some h => some h
  | none => m.default_handler

/-- The line traceback.print_exc writes for a trapped handler exception. -/
def tracebackOf (msg : String) : String :=
  "Traceback (most recent call last): " ++ msg

/-- Everything observable about one _event_bridge invocation: the manager
state afterwards, the final state of the touched wrapper (none when the
bridge returned before touching one), which handler was invoked (none
when the event was dropped), whether the handler raised (and was caught),
and the lines logged. -/
structure BridgeResult where
  mgr : Manager
  wrapper : Option Connection
  invoked : Option Handler
  raised : Bool
  log : List String

/-- Embeds _event_bridge from the Cython source.  The two early returns
model the NULL checks on conn.mgr and mgr.userdata.  The handler call is
wrapped in try/except: an exception is logged via traceback.print_exc and
swallowed.  On MG_EV_CLOSE, and only after the handler call, the wrapper
is dropped; when no handler resolves, the bridge returns before the drop.
The bridge is a total function: no exception escapes it. -/
def event_bridge (m : Manager) (p : Nat) (conn : mg_connection) (ev : Nat)
    (ev_data : EvData) : BridgeResult :=
  if conn.mgr = false then ⟨m, none, none, false, []⟩
  else if m.userdata = false then ⟨m, none, none, false, []⟩
  else
    let ec := m.ensure_connection p conn
    let handler := ec.1.resolve_handler ec.2
    let payload := wrap_event_data ev ev_data
    match handler with
    | none => ⟨ec.1, some ec.2, none, false, []⟩
    | some h =>
        let call := h conn.id ev payload
        let raised := match call with
          | HandlerOutcome.ok => false
          | HandlerOutcome.exc _ => true
        let log := match call with
          | HandlerOutcome.ok => []
          | HandlerOutcome.exc msg => [tracebackOf msg]
        if ev == MG_EV_CLOSE then
          let md := ec.1.drop_connection p
          ⟨md.1, md.2, some h, raised, log⟩
        else
          ⟨ec.1, some ec.2, some h, raised, log⟩

/-- Modelled from the spec: mg_wakeup writes a framed record (id, length,
bytes) to the writer end of the wakeup channel (section 4.9); it reports
failure when wakeup support was not initialized. -/
def mg_wakeup (m : Manager) (cid : Nat) (data : Bytes) : Manager × Bool :=
  if m.wakeup_enabled then
    ({ m with wakeup_queue := m.wakeup_queue ++ [(cid, data)] }, true)
  else (m, false)

/-- Whether an id names a live connection in the connections table. -/
def Manager.live_id (m : Manager) (cid : Nat) : Bool :=
  m.connections.any (fun e =>
    match e.2.conn with
    | some mc => mc.id == cid
    | none => false)

/-- Modelled from the spec: the wakeup-channel step of one poll tick
(section 4.3 step 6): for each framed record, locate the target connection
by id and emit WAKEUP with the payload; a record whose id names no live
connection is a no-op (section 7).  Returns the drained manager and the
emitted (connection id, ev_data) pairs. -/
def processWakeupQueue (m : Manager) : Manager × List (Nat × EvData) :=
  ({ m with wakeup_queue := [] },
   (m.wakeup_queue.filter (fun r => m.live_id r.1)).map
     (fun r => (r.1, EvData.mgStrPtr r.2)))

/-- Embeds Manager.poll: refuse with RuntimeError when the manager was
freed, otherwise run mg_mgr_poll.  Of mg_mgr_poll only the spec-modelled
wakeup-channel step is represented; socket readiness work involves the
kernel and is outside the embedding. -/
def Manager.poll (m : Manager) (timeout_ms : Int) : Except PyErr (Manager × List (Nat × EvData)) :=
  if m.freed then Except.error (PyErr.runtimeError "Manager has been freed")
  else Except.ok (processWakeupQueue m)

/-- Embeds Manager.wakeup: refuse with RuntimeError when the manager was
freed, otherwise hand the id and payload to mg_wakeup and return its
success flag. -/
def Manager.wakeup (m : Manager) (connection_id : Nat) (data : Bytes) :
    Except PyErr (Manager × Bool) :=
  if m.freed then Except.error (PyErr.runtimeError "Manager has been freed")
  else Except.ok (mg_wakeup m connection_id data)

/-- Embeds Manager.close: when not yet freed, free the underlying mg_mgr
(which closes every connection and the wakeup channel), mark the manager
freed, clear the connections dict and null mgr.userdata. -/
def Manager.close (m : Manager) : Manager :=
  if m.freed then m
  else { m with freed := true, connections := [], userdata := false,
                wakeup_queue := [] }

/-- Embeds Connection._ptr: the wrapped pointer, or RuntimeError when the
connection has been closed (pointer NULL). -/
def Connection.ptr (c : Connection) : Except PyErr mg_connection :=
  match c.conn with
  | none => Except.error (PyErr.runtimeError "Connection has been closed")
  | some mc => Except.ok mc

/-- Embeds the Connection.id property: the id, or 0 when the pointer is
NULL (no exception). -/
def Connection.id (c : Connection) : Nat :=
  match c.conn with
  | some mc => mc.id
  | none => 0

/-- Embeds the Connection.is_closing property: the is_closing flag, or
True when the pointer is NULL (no exception). -/
def Connection.is_closing (c : Connection) : Bool :=
  match c.conn with
  | some mc => mc.is_closing
  | none => true

/-- Modelled from the spec: mg_send appends the bytes to the send buffer
(section 3: the send buffer is the single serialization point for
outbound bytes) and reports success. -/
def mg_send (c : mg_connection) (data : Bytes) : mg_connection × Bool :=
  ({ c with send_buf := c.send_buf ++ data }, true)

/-- Embeds Connection.send: resolve the pointer (RuntimeError when the
connection is closed), append via mg_send, and raise RuntimeError when
mg_send reports failure. -/
def Connection.send (c : Connection) (data : Bytes) : Except PyErr mg_connection :=
  match c.ptr with
  | Except.error e => Except.error e
  | Except.ok mc =>
      let r := mg_send mc data
      if r.2 then Except.ok r.1
      else Except.error (PyErr.runtimeError "mg_send failed")

/-- Modelled from the spec: the status phrase of the response status line;
only the 200 phrase is pinned by the spec (scenario S1). -/
def statusText (code : Nat) : Bytes :=
  if code == 200 then strBytes "OK" else []

/-- Modelled from the spec: the complete response mg_http_reply writes:
status line, the caller-supplied header lines, a Content-Length header
derived from the byte length of the body, a blank line, and the body
(section 4.5). -/
def httpResponse (status : Nat) (headers : Bytes) (body : Bytes) : Bytes :=
  strBytes "HTTP/1.1 " ++ natBytes status ++ strBytes " " ++ statusText status
    ++ strBytes "\r\n" ++ headers
    ++ strBytes "Content-Length: " ++ natBytes body.length
    ++ strBytes "\r\n" ++ strBytes "\r\n" ++ body

/-- Modelled from the spec: mg_http_reply appends the complete response to
the send buffer; response helpers never write to the socket directly
(section 3).  The printf formatting of the body through the "%s" format
the binding passes is modelled as the body itself. -/
def mg_http_reply (c : mg_connection) (status : Nat) (headers : Bytes)
    (body : Bytes) : mg_connection :=
  { c with send_buf := c.send_buf ++ httpResponse status headers body }

/-- Embeds Connection.reply: when no headers dict is supplied the header
lines default to a single Content-Type: text/plain line; otherwise each
dict item is formatted as a header line.  The joined lines and the body
bytes are handed to mg_http_reply on the resolved pointer. -/
def Connection.reply (c : Connection) (status_code : Nat) (body : Bytes)
    (headers : Option (List (Bytes × Bytes))) : Except PyErr mg_connection :=
  let header_lines : List Bytes :=
    match headers with
    | none => [strBytes "Content-Type: text/plain\r\n"]
    | some hs => hs.map (fun kv => kv.1 ++ strBytes ": " ++ kv.2 ++ strBytes "\r\n")
  let headers_bytes : Bytes := header_lines.flatten
  match c.ptr with
  | Except.error e => Except.error e
  | Except.ok mc => Except.ok (mg_http_reply mc status_code headers_bytes body)

/-- Modelled from the spec: the WebSocket frame length encoding of
section 4.6 (125 or less inline, 126 with 2 length bytes, 127 with 8). -/
def wsLenBytes (n : Nat) : Bytes :=
  if n ≤ 125 then [n]
  else if n ≤ 65535 then [126, n / 256 % 256, n % 256]
  else [127, n / 256 ^ 7 % 256, n / 256 ^ 6 % 256, n / 256 ^ 5 % 256,
        n / 256 ^ 4 % 256, n / 256 ^ 3 % 256, n / 256 ^ 2 % 256,
        n / 256 % 256, n % 256]

/-- Modelled from the spec: mg_ws_send writes a frame with FIN set, the
opcode, no server-side mask, the length encoding, then the payload
(section 4.6), appended to the send buffer. -/
def mg_ws_send (c : mg_connection) (data : Bytes) (op : Nat) : mg_connection :=
  { c with send_buf := c.send_buf ++ (128 + op % 16) :: wsLenBytes data.length ++ data }

/-- Embeds Connection.ws_send: resolve the pointer and hand the payload to
mg_ws_send with the opcode. -/
def Connection.ws_send (c : Connection) (data : Bytes) (op : Nat) :
    Except PyErr mg_connection :=
  match c.ptr with
  | Except.error e => Except.error e
  | Except.ok mc => Except.ok (mg_ws_send mc data op)

/-- Modelled from the spec: mg_http_serve_dir resolves the URI under the
root via the external file provider and writes the response; the provider
is an external collaborator (section 1), so the bytes written are not
modelled. -/
def mg_http_serve_dir (c : mg_connection) (msg : mg_http_message)
    (root_dir : Bytes) : mg_connection :=
  c

/-- Embeds Connection.serve_dir: ValueError when the message view is
invalid (NULL), then the pointer is resolved (RuntimeError when the
connection is closed) and handed to mg_http_serve_dir. -/
def Connection.serve_dir (c : Connection) (message : Option mg_http_message)
    (root_dir : Bytes) : Except PyErr mg_connection :=
  match message with
  | none => Except.error (PyErr.valueError "HttpMessage is not valid for this event")
  | some msg =>
      match c.ptr with
      | Except.error e => Except.error e
      | Except.ok mc => Except.ok (mg_http_serve_dir mc msg root_dir)

/-- The struct mg_mqtt_opts fields (mongoose.pxd declaration); the
defaults are the zeroed state memset produces. -/
structure mg_mqtt_opts where
  user : Bytes := []
  password : Bytes := []
  client_id : Bytes := []
  topic : Bytes := []
  message : Bytes := []
  qos : Nat := 0
  version : Nat := 0
  keepalive : Nat := 0
  retransmit_id : Nat := 0
  retain : Bool := false
  clean : Bool := false
deriving DecidableEq

/-- Modelled from the spec: mg_mqtt_pub emits a PUBLISH with a fresh
packet id when qos is positive and returns that id (section 4.7); the
packet bytes themselves are not modelled. -/
def mg_mqtt_pub (c : mg_connection) (opts : mg_mqtt_opts) : mg_connection × Nat :=
  if opts.qos > 0 then ({ c with mqtt_id := c.mqtt_id + 1 }, c.mqtt_id)
  else (c, 0)

/-- Embeds Connection.mqtt_pub: build a zeroed mg_mqtt_opts, fill topic,
message, qos and retain, then resolve the pointer and call mg_mqtt_pub,
returning the message id. -/
def Connection.mqtt_pub (c : Connection) (topic : Bytes) (message : Bytes)
    (qos : Nat) (retain : Bool) : Except PyErr (mg_connection × Nat) :=
  let opts : mg_mqtt_opts :=
    { topic := topic, message := message, qos := qos, retain := retain }
  match c.ptr with
  | Except.error e => Except.error e
  | Except.ok mc => Except.ok (mg_mqtt_pub mc opts)

/-- Embeds the mg_mqtt_opts construction of Manager.mqtt_connect: memset
to zero, then client_id, user and password are set only when nonempty
(Python truthiness of the encoded bytes), and clean, keepalive and
version 4 (MQTT 3.1.1) are always set. -/
def Manager.mqtt_connect_opts (client_id username password : Bytes)
    (clean_session : Bool) (keepalive : Nat) : mg_mqtt_opts :=
  let opts : mg_mqtt_opts := {}
  let opts := if client_id = [] then opts else { opts with client_id := client_id }
  let opts := if username = [] then opts else { opts with user := username }
  let opts := if password = [] then opts else { opts with password := password }
  { opts with clean := clean_session, keepalive := keepalive, version := 4 }

/-- The fields of the MQTT CONNECT packet the codec emits that the spec
pins down (section 4.7 connect flow, step 2). -/
structure MqttConnectPacket where
  proto_name : Bytes
  version : Nat
  clean : Bool
  keepalive : Nat
  client_id : Bytes
  user : Bytes
  password : Bytes
deriving DecidableEq

/-- Modelled from the spec: on the CONNECT event the codec emits a CONNECT
packet containing protocol name MQTT, the version from the options, the
clean-session flag, keepalive, client id, user and password
(section 4.7). -/
def mg_mqtt_connect_packet (opts : mg_mqtt_opts) : MqttConnectPacket :=
  { proto_name := strBytes "MQTT", version := opts.version,
    clean := opts.clean, keepalive := opts.keepalive,
    client_id := opts.client_id, user := opts.user,
    password := opts.password }

/-- Split a byte string on a separator byte (used for the ampersand
between query variables). -/
def splitOnByte (sep : Nat) (l : Bytes) : List Bytes :=
  l.foldr
    (fun c acc =>
      match acc with
      | [] => [[c]]
      | cur :: rest => if c = sep then [] :: cur :: rest else (c :: cur) :: rest)
    [[]]

/-- Split one query entry at the first equals sign into name and value. -/
def querySplitPair (s : Bytes) : Bytes × Bytes :=
  let t := s.span (fun c => c != 61)
  (t.1, t.2.drop 1)

/-- The value of a named variable in a raw query string: entries are
separated by ampersands, each entry is name=value, and the first entry
with the given name wins. -/
def queryLookup (q : Bytes) (name : Bytes) : Option Bytes :=
  (((splitOnByte 38 q).map querySplitPair).find? (fun kv => kv.1 == name)).map
    (fun kv => kv.2)

/-- Modelled from the spec: mg_http_get_var extracts the named query
variable into a caller-supplied buffer of dst_len bytes; a value longer
than the buffer is truncated on extraction to that limit (section 4.4).
Returns the number of bytes written, negative when the variable is
absent, together with the buffer contents. -/
def mg_http_get_var (query : Bytes) (name : Bytes) (dst_len : Nat) : Int × Bytes :=
  match queryLookup query name with
  | none => (-4, [])
  | some v => (((min v.length dst_len : Nat) : Int), v.take dst_len)

/-- Embeds HttpMessage.query_var: None on a NULL message view; otherwise
mg_http_get_var is called on the query with a 256-byte stack buffer, None
when the return code is nonpositive, else the buffer prefix of that
length. -/
def HttpMessage.query_var (msg : Option mg_http_message) (name : Bytes) :
    Option Bytes :=
  match msg with
  | none => none
  | some m =>
      let r := mg_http_get_var m.query name 256
      if r.1 ≤ 0 then none else some r.2

/-- Embeds HttpMessage.headers: an empty list on a NULL view; otherwise
iterate the slots with index 0 to 29, stopping at the first slot whose
name is empty, and collect (name, value) pairs. -/
def HttpMessage.headers (msg : Option mg_http_message) : List (Bytes × Bytes) :=
  match msg with
  | none => []
  | some m => (m.headers.take 30).takeWhile (fun h => !h.1.isEmpty)

/-- Modelled from the spec: the HTTP parser delimits up to 30 header
entries into the fixed array of the message view, extras are dropped
(section 4.4), and unused slots keep an empty name. -/
def storeHeaders (hs : List (Bytes × Bytes)) : List (Bytes × Bytes) :=
  hs.take MG_MAX_HTTP_HEADERS
    ++ List.replicate (MG_MAX_HTTP_HEADERS - hs.length) ([], [])

end PyMongoose

namespace PyMongoose

/-- C4 counterexample: at a READ event carrying a byte count of 5, the
payload wrapped for the handler is not the integer 5. -/
theorem read_payload_not_byte_count :
    ¬ (wrap_event_data MG_EV_READ (EvData.longPtr 5) = Payload.intVal 5) := by
  decide

/-- C4 (amended): for every READ or WRITE event, whatever ev_data the
runtime passes, the payload delivered to the application handler is None;
the byte count is not exposed through the payload. -/
theorem read_write_payload_is_none (d : EvData) :
    wrap_event_data MG_EV_READ d = Payload.pyNone ∧
    wrap_event_data MG_EV_WRITE d = Payload.pyNone := by
  constructor <;> rfl

/-- The wrapper returned by ensure_connection always carries a live
pointer: every branch either installs the incoming pointer or keeps an
already live one. -/
theorem ensure_connection_conn_isSome (m : Manager) (p : Nat)
    (conn : mg_connection) :
    ((m.ensure_connection p conn).2).conn.isSome = true := by
  unfold Manager.ensure_connection
  cases h : assocFind m.connections p with
  | none => rfl
  | some c =>
      cases hc : c.conn with
      | none => simp [hc]
      | some mc => simp [hc]

/-- C1: for every event the bridge dispatches (with a live mgr pointer and
the Manager still registered as userdata), the handler invoked is the
per-connection handler of the wrapper when one is set, otherwise the
Manager default handler; and when neither is present the event is
silently dropped: no handler is invoked, nothing is raised or logged, and
the manager is left exactly as ensure_connection left it. -/
theorem handler_resolution (m : Manager) (p : Nat) (conn : mg_connection)
    (ev : Nat) (d : EvData)
    (hmgr : conn.mgr = true) (hud : m.userdata = true) :
    (event_bridge m p conn ev d).invoked
        = (match (m.ensure_connection p conn).2.handler with
           | some h => some h
           | none => m.default_handler) ∧
    ((m.ensure_connection p conn).2.handler = none →
      m.default_handler = none →
        event_bridge m p conn ev d
          = ⟨(m.ensure_connection p conn).1,
             some (m.ensure_connection p conn).2, none, false, []⟩) := by
  have hdef : (m.ensure_connection p conn).1.default_handler = m.default_handler := by
    unfold Manager.ensure_connection
    cases h : assocFind m.connections p with
    | none => rfl
    | some c =>
        cases hc : c.conn with
        | none => simp [hc]
        | some mc => simp [hc]
  constructor
  · unfold event_bridge
    rw [hmgr, hud]
    simp only [Bool.true_eq_false, if_false]
    unfold Manager.resolve_handler
    rw [hdef]
    cases h : (m.ensure_connection p conn).2.handler with
    | none =>
        cases hd : m.default_handler with
        | none => simp [h, hd]
        | some hh => simp [h, hd]; split <;> rfl
    | some hh => simp [h]; split <;> rfl
  · intro hch hdh
    unfold event_bridge
    rw [hmgr, hud]
    simp only [Bool.true_eq_false, if_false]
    unfold Manager.resolve_handler
    rw [hch, hdef, hdh]

/-- C2: for every event dispatch (other than CLOSE, whose table drop is
covered by the CLOSE-lifecycle theorem) in which the resolved application
handler raises an exception, the exception is caught at the bridge: the
bridge returns a result recording the catch, a traceback line is logged,
the manager is exactly what ensure_connection produced (same freed flag
and connection table, so the Manager is not torn down and the connection
is not dropped), the wrapper keeps its live pointer, and a subsequent
poll on the resulting manager still runs. -/
theorem handler_exception_trapped (m : Manager) (p : Nat)
    (conn : mg_connection) (ev : Nat) (d : EvData) (h : Handler) (msg : String)
    (hmgr : conn.mgr = true) (hud : m.userdata = true)
    (hres : (m.ensure_connection p conn).1.resolve_handler
              (m.ensure_connection p conn).2 = some h)
    (hexc : h conn.id ev (wrap_event_data ev d) = HandlerOutcome.exc msg)
    (hev : (ev == MG_EV_CLOSE) = false)
    (hfree : m.freed = false) :
    (event_bridge m p conn ev d).raised = true ∧
    (event_bridge m p conn ev d).log = [tracebackOf msg] ∧
    (event_bridge m p conn ev d).mgr = (m.ensure_connection p conn).1 ∧
    (event_bridge m p conn ev d).mgr.freed = false ∧
    (event_bridge m p conn ev d).wrapper = some (m.ensure_connection p conn).2 ∧
    ((m.ensure_connection p conn).2).conn.isSome = true ∧
    (event_bridge m p conn ev d).mgr.poll 0
      = Except.ok (processWakeupQueue (event_bridge m p conn ev d).mgr) := by
  have hfr : (m.ensure_connection p conn).1.freed = m.freed := by
    unfold Manager.ensure_connection
    cases h : assocFind m.connections p with
    | none => rfl
    | some c =>
        cases hc : c.conn with
        | none => simp [hc]
        | some mc => simp [hc]
  have hb : event_bridge m p conn ev d
      = ⟨(m.ensure_connection p conn).1, some (m.ensure_connection p conn).2,
         some h, true, [tracebackOf msg]⟩ := by
    unfold event_bridge
    rw [hmgr, hud]
    simp only [Bool.true_eq_false, if_false]
    rw [hres]
    simp only [hexc, hev]
    rfl
  refine ⟨by rw [hb], by rw [hb], by rw [hb], ?_, by rw [hb],
    ensure_connection_conn_isSome m p conn, ?_⟩
  · rw [hb]; simpa [hfr] using hfree
  · rw [hb]
    simp only [Manager.poll]
    rw [hfr, hfree]
    rfl

/-- Unfolding lookup one entry at a time. -/
theorem assocFind_cons {α : Type} (e : Nat × α) (t : List (Nat × α)) (p : Nat) :
    assocFind (e :: t) p = if e.1 == p then some e.2 else assocFind t p := by
  by_cases he : (e.1 == p) = true
  · simp [assocFind, List.find?_cons_of_pos _ he, he]
  · rw [Bool.not_eq_true] at he
    have hne : ¬ (e.1 == p) = true := by simp [he]
    simp [assocFind, List.find?_cons_of_neg _ hne, he]

/-- Unfolding overwrite one entry at a time. -/
theorem assocSet_cons {α : Type} (e : Nat × α) (t : List (Nat × α)) (p : Nat)
    (v : α) :
    assocSet (e :: t) p v = (if e.1 == p then (p, v) else e) :: assocSet t p v :=
  rfl

/-- Appending a fresh key to a table that lacks it makes lookup find it. -/
theorem assocFind_append_none {α : Type} (l : List (Nat × α)) (p : Nat) (v : α)
    (h : assocFind l p = none) : assocFind (l ++ [(p, v)]) p = some v := by
  induction l with
  | nil => simp [assocFind]
  | cons e t ih =>
      rw [assocFind_cons] at h
      rw [List.cons_append, assocFind_cons]
      by_cases he : (e.1 == p) = true
      · rw [he] at h
        simp at h
      · rw [Bool.not_eq_true] at he
        rw [he] at h ⊢
        simp only [Bool.false_eq_true, if_false] at h ⊢
        exact ih h

/-- Overwriting a present key makes lookup return the new value. -/
theorem assocFind_assocSet {α : Type} (l : List (Nat × α)) (p : Nat) (c v : α)
    (h : assocFind l p = some c) : assocFind (assocSet l p v) p = some v := by
  induction l with
  | nil => simp [assocFind] at h
  | cons e t ih =>
      rw [assocFind_cons] at h
      rw [assocSet_cons, assocFind_cons]
      by_cases he : (e.1 == p) = true
      · simp [he]
      · rw [Bool.not_eq_true] at he
        rw [he] at h
        simp only [Bool.false_eq_true, if_false] at h
        simp only [he, Bool.false_eq_true, if_false]
        exact ih h

/-- Erasing a key makes lookup miss it. -/
theorem assocFind_erase {α : Type} (l : List (Nat × α)) (p : Nat) :
    assocFind (assocErase l p) p = none := by
  induction l with
  | nil => rfl
  | cons e t ih =>
      unfold assocErase at ih ⊢
      rw [List.filter_cons]
      by_cases he : (e.1 == p) = true
      · simp only [bne, he, Bool.not_true, Bool.false_eq_true, if_false]
        exact ih
      · rw [Bool.not_eq_true] at he
        simp only [bne, he, Bool.not_false, if_true]
        rw [assocFind_cons, he]
        simpa using ih

/-- After ensure_connection, the wrapper it returns is the one stored in
the connections table at the pointer key. -/
theorem ensure_connection_find (m : Manager) (p : Nat) (conn : mg_connection) :
    assocFind (m.ensure_connection p conn).1.connections p
      = some (m.ensure_connection p conn).2 := by
  unfold Manager.ensure_connection
  cases h : assocFind m.connections p with
  | none => simpa using assocFind_append_none m.connections p _ h
  | some c =>
      cases hc : c.conn with
      | none => simpa [hc] using assocFind_assocSet m.connections p c _ h
      | some mc => simpa [hc] using h

/-- C10: when a CLOSE event is dispatched and a handler resolves (whatever
its outcome, so in particular also when it raised), the bridge removes the
wrapper from the connections table and nulls its pointer; on the resulting
wrapper every operation that needs the live connection (send, reply,
ws_send, serve_dir, mqtt_pub) raises RuntimeError, while the id property
returns 0 and is_closing returns True instead of raising. -/
theorem close_event_lifecycle (m : Manager) (p : Nat) (conn : mg_connection)
    (d : EvData) (h : Handler)
    (hmgr : conn.mgr = true) (hud : m.userdata = true)
    (hres : (m.ensure_connection p conn).1.resolve_handler
              (m.ensure_connection p conn).2 = some h)
    (data topic payload root : Bytes) (status op qos : Nat) (retain : Bool)
    (hm : mg_http_message) :
    assocFind (event_bridge m p conn MG_EV_CLOSE d).mgr.connections p = none ∧
    (event_bridge m p conn MG_EV_CLOSE d).wrapper
      = some { (m.ensure_connection p conn).2 with conn := none } ∧
    Connection.send { (m.ensure_connection p conn).2 with conn := none } data
      = Except.error (PyErr.runtimeError "Connection has been closed") ∧
    Connection.reply { (m.ensure_connection p conn).2 with conn := none }
        status data none
      = Except.error (PyErr.runtimeError "Connection has been closed") ∧
    Connection.ws_send { (m.ensure_connection p conn).2 with conn := none }
        data op
      = Except.error (PyErr.runtimeError "Connection has been closed") ∧
    Connection.serve_dir { (m.ensure_connection p conn).2 with conn := none }
        (some hm) root
      = Except.error (PyErr.runtimeError "Connection has been closed") ∧
    Connection.mqtt_pub { (m.ensure_connection p conn).2 with conn := none }
        topic payload qos retain
      = Except.error (PyErr.runtimeError "Connection has been closed") ∧
    Connection.id { (m.ensure_connection p conn).2 with conn := none } = 0 ∧
    Connection.is_closing
        { (m.ensure_connection p conn).2 with conn := none } = true := by
  have hdrop : (m.ensure_connection p conn).1.drop_connection p
      = ({ (m.ensure_connection p conn).1 with
             connections :=
               assocErase (m.ensure_connection p conn).1.connections p },
         some { (m.ensure_connection p conn).2 with conn := none }) := by
    unfold Manager.drop_connection
    rw [ensure_connection_find m p conn]
  have hb : event_bridge m p conn MG_EV_CLOSE d
      = ⟨((m.ensure_connection p conn).1.drop_connection p).1,
         ((m.ensure_connection p conn).1.drop_connection p).2,
         some h,
         (match h conn.id MG_EV_CLOSE (wrap_event_data MG_EV_CLOSE d) with
          | HandlerOutcome.ok => false
          | HandlerOutcome.exc _ => true),
         (match h conn.id MG_EV_CLOSE (wrap_event_data MG_EV_CLOSE d) with
          | HandlerOutcome.ok => []
          | HandlerOutcome.exc msg => [tracebackOf msg])⟩ := by
    unfold event_bridge
    rw [hmgr, hud]
    simp only [Bool.true_eq_false, if_false]
    rw [hres]
    rfl
  refine ⟨?_, ?_, rfl, rfl, rfl, rfl, rfl, rfl, rfl⟩
  · rw [hb, hdrop]
    exact assocFind_erase _ p
  · rw [hb, hdrop]

/-- C8: after close(), the manager is marked freed, and both poll and
wakeup refuse the operation by raising RuntimeError with a diagnostic;
the refusal produces an exception, not an event (the error return carries
no event list), and never touches the freed mg_mgr. -/
theorem freed_manager_refuses (m : Manager) (t : Int) (cid : Nat) (d : Bytes) :
    (m.close).freed = true ∧
    (m.close).poll t
      = Except.error (PyErr.runtimeError "Manager has been freed") ∧
    (m.close).wakeup cid d
      = Except.error (PyErr.runtimeError "Manager has been freed") := by
  have hf : (m.close).freed = true := by
    by_cases h : m.freed
    · simp [Manager.close, h]
    · simp [Manager.close, h]
  exact ⟨hf, by simp [Manager.poll, hf], by simp [Manager.wakeup, hf]⟩

/-- C3: on a live (not freed) manager initialized with wakeup enabled and
an empty wakeup channel, wakeup(id, data) for an id naming a live
connection succeeds and enqueues exactly one framed record; the
wakeup-channel step of the next poll then delivers exactly one WAKEUP
ev_data to that id carrying the payload, and the bridge wraps that
ev_data as a Python bytes object equal to data. -/
theorem wakeup_delivers_exactly_once (m : Manager) (cid : Nat) (data : Bytes)
    (hfree : m.freed = false) (hen : m.wakeup_enabled = true)
    (hq : m.wakeup_queue = []) (hlive : m.live_id cid = true) :
    m.wakeup cid data
      = Except.ok ({ m with wakeup_queue := [(cid, data)] }, true) ∧
    Manager.poll { m with wakeup_queue := [(cid, data)] } 0
      = Except.ok ({ m with wakeup_queue := [] },
                   [(cid, EvData.mgStrPtr data)]) ∧
    wrap_event_data MG_EV_WAKEUP (EvData.mgStrPtr data)
      = Payload.bytesVal data := by
  refine ⟨?_, ?_, rfl⟩
  · simp [Manager.wakeup, mg_wakeup, hfree, hen, hq]
  · simp only [Manager.live_id] at hlive
    simp [Manager.poll, processWakeupQueue, Manager.live_id, hfree, hlive]

/-- C5: when a query variable is present with a value longer than 256
bytes, query_var returns the value truncated to the 256-byte buffer
limit; the message view is read only, so the value stored in the query of
the message keeps its full length. -/
theorem query_var_truncates (m : mg_http_message) (name v : Bytes)
    (hfind : queryLookup m.query name = some v) (hlong : 256 < v.length) :
    HttpMessage.query_var (some m) name = some (v.take 256) ∧
    (v.take 256).length = 256 ∧
    ∃ w, queryLookup m.query name = some w ∧ 256 < w.length := by
  have hmin : min v.length 256 = 256 := Nat.min_eq_right (Nat.le_of_lt hlong)
  refine ⟨?_, ?_, v, hfind, hlong⟩
  · simp [HttpMessage.query_var, mg_http_get_var, hfind, hmin]
  · rw [List.length_take]
    exact Nat.min_eq_left (Nat.le_of_lt hlong)

/-- C6: for a request carrying 31 or more headers (all with nonempty
names), the parser stores exactly the first 30 in the message view and
the binding iterates exactly those 30; moreover iteration stops at the
first empty-name slot, whatever sits in the slots after it. -/
theorem headers_capped_at_30 (hs tail : List (Bytes × Bytes))
    (hnz : ∀ kv ∈ hs, kv.1 ≠ []) (hmany : 31 ≤ hs.length) :
    HttpMessage.headers (some { headers := storeHeaders hs }) = hs.take 30 ∧
    (hs.take 30).length = 30 ∧
    HttpMessage.headers
        (some { headers := hs.take 29 ++ ([], []) :: tail }) = hs.take 29 := by
  have hsub : ∀ n, ∀ kv ∈ hs.take n, kv.1 ≠ [] :=
    fun n kv hkv => hnz kv (List.take_subset n hs hkv)
  have hpred : ∀ n, ∀ kv ∈ hs.take n, (fun h => !h.1.isEmpty) kv = true := by
    intro n kv hkv
    simp only [Bool.not_eq_true']
    rw [← Bool.not_eq_true]
    simpa [List.isEmpty_iff] using hsub n kv hkv
  refine ⟨?_, ?_, ?_⟩
  · have hzero : MG_MAX_HTTP_HEADERS - hs.length = 0 :=
      Nat.sub_eq_zero_of_le (le_trans (by norm_num [MG_MAX_HTTP_HEADERS]) hmany)
    simp only [HttpMessage.headers, storeHeaders, hzero]
    simp only [List.replicate_zero, List.append_nil, List.take_take]
    norm_num [MG_MAX_HTTP_HEADERS]
    intro a b hab
    exact hsub 30 (a, b) hab
  · rw [List.length_take]
    exact Nat.min_eq_left (by omega)
  · have h29 : (hs.take 29).length = 29 := by
      rw [List.length_take]
      exact Nat.min_eq_left (by omega)
    simp only [HttpMessage.headers]
    rw [List.take_append_eq_append_take, h29]
    rw [List.take_of_length_le (by omega)]
    norm_num
    rw [List.takeWhile_append_of_pos (by
      intro a ha
      exact hpred 29 a ha)]
    simp

/-- C7: reply(status, body) on a live connection with no headers argument
appends one complete HTTP response to the send buffer; that response
contains the default Content-Type: text/plain header line and a
Content-Length header whose value is the byte length of the supplied
body. -/
theorem reply_writes_complete_response (c : Connection) (mc : mg_connection)
    (status : Nat) (body : Bytes) (hc : c.conn = some mc) :
    c.reply status body none
      = Except.ok { mc with
          send_buf := mc.send_buf ++
            httpResponse status (strBytes "Content-Type: text/plain\r\n") body } ∧
    strBytes "Content-Type: text/plain\r\n"
      <:+: httpResponse status (strBytes "Content-Type: text/plain\r\n") body ∧
    (strBytes "Content-Length: " ++ natBytes body.length ++ strBytes "\r\n")
      <:+: httpResponse status (strBytes "Content-Type: text/plain\r\n") body := by
  refine ⟨?_, ?_, ?_⟩
  · simp [Connection.reply, Connection.ptr, hc, mg_http_reply]
  · refine ⟨strBytes "HTTP/1.1 " ++ natBytes status ++ strBytes " "
        ++ statusText status ++ strBytes "\r\n",
      strBytes "Content-Length: " ++ natBytes body.length
        ++ strBytes "\r\n" ++ strBytes "\r\n" ++ body, ?_⟩
    simp [httpResponse, List.append_assoc]
  · refine ⟨strBytes "HTTP/1.1 " ++ natBytes status ++ strBytes " "
        ++ statusText status ++ strBytes "\r\n"
        ++ strBytes "Content-Type: text/plain\r\n",
      strBytes "\r\n" ++ body, ?_⟩
    simp [httpResponse, List.append_assoc]

/-- C9: the MQTT CONNECT options Manager.mqtt_connect builds always carry
protocol version 4 (MQTT 3.1.1), and the CONNECT packet the codec emits
from them carries protocol name MQTT, version 4, and the caller-supplied
clean-session flag, keepalive interval, client id, username and
password. -/
theorem mqtt_connect_version_4 (client_id username password : Bytes)
    (clean_session : Bool) (keepalive : Nat) :
    (Manager.mqtt_connect_opts client_id username password clean_session
        keepalive).version = 4 ∧
    mg_mqtt_connect_packet
        (Manager.mqtt_connect_opts client_id username password clean_session
          keepalive)
      = { proto_name := strBytes "MQTT", version := 4, clean := clean_session,
          keepalive := keepalive, client_id := client_id, user := username,
          password := password } := by
  unfold Manager.mqtt_connect_opts mg_mqtt_connect_packet
  refine ⟨by split_ifs <;> rfl, ?_⟩
  split_ifs with h1 h2 h3 <;> simp_all

/-- A concrete handler that always raises, for witnesses. -/
def boomHandler : Handler := fun _ _ _ => HandlerOutcome.exc "boom"

/-- A concrete fresh manager with no default handler. -/
def mW1 : Manager := {}

/-- A concrete manager whose default handler raises. -/
def mW2 : Manager := { default_handler := some boomHandler }

/-- A concrete connection struct with a live mgr pointer. -/
def cW : mg_connection := { id := 1 }

/-- Witness for the handler resolution theorem: on a fresh manager with no
default handler and a fresh connection, the hypotheses hold and the OPEN
event is dropped with no handler invoked. -/
theorem handler_resolution_witness :
    cW.mgr = true ∧ mW1.userdata = true ∧
    (event_bridge mW1 0 cW MG_EV_OPEN EvData.null).invoked = none :=
  ⟨rfl, rfl,
   ((handler_resolution mW1 0 cW MG_EV_OPEN EvData.null rfl rfl).1).trans rfl⟩

/-- Witness for the exception-trapping theorem: a raising default handler
on a READ event is caught and logged. -/
theorem handler_exception_trapped_witness :
    cW.mgr = true ∧ mW2.userdata = true ∧
    (mW2.ensure_connection 0 cW).1.resolve_handler
        (mW2.ensure_connection 0 cW).2 = some boomHandler ∧
    boomHandler cW.id MG_EV_READ (wrap_event_data MG_EV_READ EvData.null)
      = HandlerOutcome.exc "boom" ∧
    (MG_EV_READ == MG_EV_CLOSE) = false ∧
    mW2.freed = false ∧
    (event_bridge mW2 0 cW MG_EV_READ EvData.null).raised = true ∧
    (event_bridge mW2 0 cW MG_EV_READ EvData.null).log = [tracebackOf "boom"] :=
  ⟨rfl, rfl, rfl, rfl, rfl, rfl,
   (handler_exception_trapped mW2 0 cW MG_EV_READ EvData.null boomHandler
     "boom" rfl rfl rfl rfl rfl rfl).1,
   (handler_exception_trapped mW2 0 cW MG_EV_READ EvData.null boomHandler
     "boom" rfl rfl rfl rfl rfl rfl).2.1⟩

/-- Witness for the CLOSE lifecycle theorem: after CLOSE dispatched to a
raising handler, the table entry is gone and the wrapper is nulled. -/
theorem close_event_lifecycle_witness :
    cW.mgr = true ∧ mW2.userdata = true ∧
    (mW2.ensure_connection 0 cW).1.resolve_handler
        (mW2.ensure_connection 0 cW).2 = some boomHandler ∧
    assocFind (event_bridge mW2 0 cW MG_EV_CLOSE EvData.null).mgr.connections 0
      = none ∧
    (event_bridge mW2 0 cW MG_EV_CLOSE EvData.null).wrapper
      = some { (mW2.ensure_connection 0 cW).2 with conn := none } :=
  ⟨rfl, rfl, rfl,
   (close_event_lifecycle mW2 0 cW EvData.null boomHandler rfl rfl rfl
     [1] [116] [2] [46] 200 1 1 true {}).1,
   (close_event_lifecycle mW2 0 cW EvData.null boomHandler rfl rfl rfl
     [1] [116] [2] [46] 200 1 1 true {}).2.1⟩

/-- A concrete manager with wakeup enabled and one live connection of
id 7 registered in its table. -/
def mW3 : Manager :=
  { connections := [(1, { conn := some { id := 7 } })], wakeup_enabled := true }

/-- Witness for the wakeup delivery theorem at a concrete manager with a
live connection of id 7. -/
theorem wakeup_delivers_exactly_once_witness :
    mW3.freed = false ∧ mW3.wakeup_enabled = true ∧
    mW3.wakeup_queue = [] ∧ mW3.live_id 7 = true ∧
    mW3.wakeup 7 [1, 2]
      = Except.ok ({ mW3 with wakeup_queue := [(7, [1, 2])] }, true) :=
  ⟨rfl, rfl, rfl, rfl,
   (wakeup_delivers_exactly_once mW3 7 [1, 2] rfl rfl rfl rfl).1⟩

/-- A concrete message whose query holds the variable a with a 257-byte
value. -/
def mqW : mg_http_message := { query := 97 :: 61 :: List.replicate 257 98 }

set_option maxRecDepth 8000 in
/-- Witness for the query-variable truncation theorem at the concrete
257-byte value. -/
theorem query_var_truncates_witness :
    queryLookup mqW.query [97] = some (List.replicate 257 98) ∧
    256 < (List.replicate 257 98 : Bytes).length ∧
    HttpMessage.query_var (some mqW) [97]
      = some ((List.replicate 257 98 : Bytes).take 256) :=
  ⟨by decide, by decide,
   (query_var_truncates mqW [97] (List.replicate 257 98)
     (by decide) (by decide)).1⟩

/-- A concrete list of 31 headers with nonempty names. -/
def hsW : List (Bytes × Bytes) := List.replicate 31 ([104], [118])

/-- Witness for the header cap theorem at a concrete request carrying 31
headers. -/
theorem headers_capped_at_30_witness :
    (∀ kv ∈ hsW, kv.1 ≠ []) ∧ 31 ≤ hsW.length ∧
    HttpMessage.headers (some { headers := storeHeaders hsW }) = hsW.take 30 :=
  ⟨by decide, by decide,
   (headers_capped_at_30 hsW [([120], [121])] (by decide) (by decide)).1⟩

/-- A concrete live connection struct for the reply witness. -/
def mcW : mg_connection := { id := 1 }

/-- A concrete live Connection wrapper for the reply witness. -/
def cW7 : Connection := { conn := some mcW }

/-- Witness for the reply theorem: replying 200 with body ok on a live
connection writes the modelled response. -/
theorem reply_writes_complete_response_witness :
    cW7.conn = some mcW ∧
    cW7.reply 200 (strBytes "ok") none
      = Except.ok { mcW with
          send_buf := mcW.send_buf ++
            httpResponse 200 (strBytes "Content-Type: text/plain\r\n")
              (strBytes "ok") } :=
  ⟨rfl, (reply_writes_complete_response cW7 mcW 200 (strBytes "ok") rfl).1⟩

end PyMongoose
